import Mathlib

/-!
Verification of the node-security repository: a shallow embedding of the
permission-resolution engine (src/ModuleLoader.js), the gatekeeper instance
lifecycle (NodeSecurity class: configure and reset), the default capability
plugin (src/plugins/NodeSecurityPlugin.js) and the error constants
(src/Errors.js), together with theorems settling the frozen claims about
the specification.

JavaScript objects used as string-keyed tables are embedded as association
lists over String. Lookup models property access (absent key gives none);
merge models object spread, where keys of the second object win.
-/

set_option autoImplicit false

/-- Property lookup on a JS object embedded as an association list:
obj[k] is the value of the first binding of k, or none when k is absent. -/
def jsGet {α : Type} (l : List (String × α)) (k : String) : Option α :=
  match l with
  | [] => none
  | (k2, v) :: rest => if k2 == k then some v else jsGet rest k

/-- Object spread merge as in the source, where the keys of b
override the keys of a. Lookup-faithful: a key is found in b first,
otherwise in a. -/
def jsMerge {α : Type} (a b : List (String × α)) : List (String × α) :=
  b ++ a.filter (fun kv => (jsGet b kv.1).isNone)

/-- A value stored in the core permission table. JS permits booleans
(true allows, false denies), objects (member-level restriction maps,
handed to a plugin), and null or undefined bindings. -/
inductive CoreVal : Type where
  | bool (b : Bool)
  | obj (members : List (String × Bool))
  | nul
deriving DecidableEq, Repr

/-- The env configuration option: absent (null or undefined), a boolean
(false disables every environment variable), or an allow-list object. -/
inductive EnvOpt : Type where
  | nul
  | boolVal (b : Bool)
  | allow (entries : List (String × Bool))
deriving DecidableEq, Repr

/-- Identity of a plugin constructor stored in the plugins table. The
repository ships a single plugin class, NodeSecurityPlugin. -/
inductive PluginKind : Type where
  | nodeSecurityPlugin
deriving DecidableEq, Repr

/-- The configuration object held by a NodeSecurity instance and consumed
by its ModuleLoader: global core table, per-requester module table, env
option and plugins table. -/
structure NSConfig : Type where
  core : List (String × CoreVal)
  module : List (String × List (String × Bool))
  env : EnvOpt
  plugins : List (String × PluginKind)
deriving DecidableEq, Repr

/-- The userConfig argument of configure; absent sections default to
empty objects (the source writes userConfig.core or \x7b\x7d), and env
defaults to undefined. -/
structure UserConfig : Type where
  core : List (String × CoreVal) := []
  module : List (String × List (String × Bool)) := []
  env : EnvOpt := EnvOpt.nul
  plugins : List (String × PluginKind) := []
deriving DecidableEq, Repr

/-- Names of the built-in modules listed in the NodeSecurity constructor. -/
def coreModuleNames : List String :=
  ["assert", "buffer", "child_process", "cluster", "crypto", "dgram",
   "dns", "domain", "events", "fs", "http", "http2", "https", "inspector",
   "module", "net", "os", "path", "perf_hooks", "punycode", "querystring",
   "readline", "stream", "string_decoder", "timers", "tls", "tty", "url",
   "util", "v8", "vm", "zlib"]

/-- The default core table built in the NodeSecurity constructor: every
built-in module name mapped to false, plus the node-security entry itself
mapped to false. -/
def defaultCoreConfig : List (String × CoreVal) :=
  coreModuleNames.map (fun n => (n, CoreVal.bool false))
    ++ [("node-security", CoreVal.bool false)]

/-- The default plugins table built in the NodeSecurity constructor:
every built-in module name mapped to the NodeSecurityPlugin class. -/
def defaultPlugins : List (String × PluginKind) :=
  coreModuleNames.map (fun n => (n, PluginKind.nodeSecurityPlugin))

/-- The configuration a NodeSecurity instance holds directly after its
constructor ran. -/
def defaultConfig : NSConfig :=
  { core := defaultCoreConfig
    module := []
    env := EnvOpt.nul
    plugins := defaultPlugins }

/-- A module record as seen by Module handles: a resolved filename and an
optional parent record (the module that required it). -/
inductive ModuleRef : Type where
  | mk (filename : String) (parent : Option ModuleRef)

/-- The while loop body of findParentModules applied to a non-null module:
push the filename, continue with the parent link. -/
def ModuleRef.parentList : ModuleRef → List String
  | ModuleRef.mk f none => [f]
  | ModuleRef.mk f (some p) => f :: ModuleRef.parentList p

/-- findParentModules from ModuleLoader.js: walk the parent links starting
from the given (possibly null) parent, collecting filenames nearest first. -/
def findParentModules : Option ModuleRef → List String
  | none => []
  | some m => ModuleRef.parentList m

/-- Builds a parent chain whose findParentModules result is exactly the
given list of filenames (nearest requester first). -/
def chainOf : List String → Option ModuleRef
  | [] => none
  | f :: rest => some (ModuleRef.mk f (chainOf rest))

theorem findParentModules_chainOf (l : List String) :
    findParentModules (chainOf l) = l := by
  induction l with
  | nil => rfl
  | cons f rest ih =>
    cases rest with
    | nil => rfl
    | cons g tail =>
      simp only [chainOf, findParentModules] at ih ⊢
      simp [ModuleRef.parentList, ih]

/-- The for loop inside isModuleAllowed: walk the parent filenames in
order; for the first parent that has a module-table entry containing a
binding for the request, return that binding. The two null checks of the
source correspond to the two lookups succeeding. -/
def walkOverrides (moduleTable : List (String × List (String × Bool))) :
    List String → String → Option Bool
  | [], _ => none
  | parentModule :: rest, request =>
    match jsGet moduleTable parentModule with
    | some moduleConfig =>
      match jsGet moduleConfig request with
      | some verdict => some verdict
      | none => walkOverrides moduleTable rest request
    | none => walkOverrides moduleTable rest request

/-- isModuleAllowed from ModuleLoader.js: first the per-requester loop
over the parent chain, then the core-table check. The source tests
config.core[request] != null together with config.core[request] === false,
which in this embedding is exactly a lookup result of some (bool false):
absent keys and null bindings fail the first test, and every non-false
value fails the strict comparison. -/
def isModuleAllowed (config : NSConfig) (request : String)
    (parent : Option ModuleRef) : Bool :=
  let parentModules := findParentModules parent
  match walkOverrides config.module parentModules request with
  | some verdict => verdict
  | none =>
    if jsGet config.core request = some (CoreVal.bool false) then
      false
    else
      true

/-- The payload of the error thrown by ModuleLoader.load on a denied
request, as produced by ERROR_NOT_ALLOWED_TO_LOAD in Errors.js: the
requested module name and the parent tree computed by findParentModules. -/
structure LoadBlockedError : Type where
  request : String
  parents : List String
deriving DecidableEq, Repr

/-- The load arrow function of ModuleLoader.js, parametric in the captured
originalLoad implementation and its result type: check isModuleAllowed,
throw the descriptive error when denied, otherwise call originalLoad with
the same three arguments and return its result. -/
def ModuleLoader.load {α : Type} (config : NSConfig)
    (originalLoad : String → Option ModuleRef → Bool → α)
    (request : String) (parent : Option ModuleRef) (isMain : Bool) :
    Except LoadBlockedError α :=
  let allowedToLoad := isModuleAllowed config request parent
  if !allowedToLoad then
    let parents := findParentModules parent
    Except.error { request := request, parents := parents }
  else
    Except.ok (originalLoad request parent isMain)

/-- The process-wide Module internal load entry point, viewed structurally:
either the pristine host loader, or the load hook of the NodeSecurity
instance with the given id, holding the config its ModuleLoader was built
with and the previously active entry point it captured as originalLoad. -/
inductive Impl : Type where
  | original
  | hook (id : Nat) (config : NSConfig) (prev : Impl)
deriving DecidableEq, Repr

/-- Whether the entry point, when invoked, runs the hook of the instance
with the given id somewhere along its chain of captured previous
implementations. -/
def Impl.usesHook : Impl → Nat → Bool
  | Impl.original, _ => false
  | Impl.hook i _ prev, n => i == n || Impl.usesHook prev n

/-- The state of a ModuleLoader object: the config reference it was built
with and the Module load implementation it captured as originalLoad. -/
structure ModuleLoaderState : Type where
  config : NSConfig
  originalLoad : Impl
deriving DecidableEq, Repr

/-- The state of one NodeSecurity instance: its config object, the
configured flag, and its ModuleLoader if one was ever created. -/
structure NSInstance : Type where
  id : Nat
  config : NSConfig
  configured : Bool
  moduleLoader : Option ModuleLoaderState
deriving DecidableEq, Repr

/-- Process-wide mutable state touched by NodeSecurity: the active
Module load entry point and the process env table. An env value of none
models a key bound to undefined. -/
structure ProcessState : Type where
  moduleLoad : Impl
  env : List (String × Option String)
deriving DecidableEq, Repr

/-- A NodeSecurity instance directly after its constructor ran. -/
def freshInstance (id : Nat) : NSInstance :=
  { id := id
    config := defaultConfig
    configured := false
    moduleLoader := none }

/-- ERROR_ALREADY_CONFIGURED from Errors.js. -/
def ERROR_ALREADY_CONFIGURED : String :=
  "NodeSecurity has already been configured."

/-- process.env[key] as read by the env filter: none (undefined) when the
key is absent or bound to undefined. -/
def envValue (env : List (String × Option String)) (k : String) :
    Option String :=
  match jsGet env k with
  | some v => v
  | none => none

/-- The env replacement built inside configure when config.env is not
null: Object.keys of the env option, filtered by truthiness of their
configured value, each mapped to the ambient process.env value and
collected into a new object. A boolean env option has no keys, so the
result is empty. -/
def filterEnv (cfgEnv : EnvOpt) (env : List (String × Option String)) :
    List (String × Option String) :=
  match cfgEnv with
  | EnvOpt.nul => env
  | EnvOpt.boolVal _ => []
  | EnvOpt.allow l =>
    ((l.map (fun kv => kv.1)).filter
        (fun k => jsGet l k == some true)).map
      (fun k => (k, envValue env k))

/-- The config computed by configure: spread-merge of the current config
with the user config section by section, env taken from the user config
alone, and every key of the merged module table replaced by its resolved
path (require.resolve, supplied here as res). The reduce that rebuilds the
module object assigns in key order so a later duplicate wins; with
first-binding lookup that is the reversed list. -/
def mergeConfig (res : String → String) (c : NSConfig) (u : UserConfig) :
    NSConfig :=
  { core := jsMerge c.core u.core
    module := ((jsMerge c.module u.module).map
        (fun kv => (res kv.1, kv.2))).reverse
    env := u.env
    plugins := jsMerge c.plugins u.plugins }

/-- configure from the NodeSecurity class, with require.resolve supplied
as res. Returns the thrown error message if any, together with the
instance state and process state after the call. Steps of the source, in
order: the configured guard, the config merge with module-key resolution,
the plugin-loading loop (which only mutates already loaded module objects,
modeled separately by NodeSecurityPlugin), the env replacement when
config.env is not null, the one-time ModuleLoader creation with the
Module load override, and finally setting the configured flag. -/
def NodeSecurity.configure (res : String → String) (inst : NSInstance)
    (proc : ProcessState) (userConfig : UserConfig) :
    Option String × NSInstance × ProcessState :=
  if inst.configured then
    (some ERROR_ALREADY_CONFIGURED, inst, proc)
  else
    let config := mergeConfig res inst.config userConfig
    let newEnv :=
      match config.env with
      | EnvOpt.nul => proc.env
      | e => filterEnv e proc.env
    match inst.moduleLoader with
    | some ml =>
      (none,
       { inst with config := config, configured := true,
                   moduleLoader := some ml },
       { proc with env := newEnv })
    | none =>
      let ml : ModuleLoaderState :=
        { config := config, originalLoad := proc.moduleLoad }
      (none,
       { inst with config := config, configured := true,
                   moduleLoader := some ml },
       { proc with env := newEnv,
                   moduleLoad := Impl.hook inst.id config proc.moduleLoad })

/-- reset from the NodeSecurity class: when the instance holds a
ModuleLoader, restore the Module load entry point to the implementation
that ModuleLoader captured and clear the configured flag; otherwise do
nothing. -/
def NodeSecurity.reset (inst : NSInstance) (proc : ProcessState) :
    NSInstance × ProcessState :=
  match inst.moduleLoader with
  | some ml =>
    ({ inst with configured := false },
     { proc with moduleLoad := ml.originalLoad })
  | none => (inst, proc)

/-- A member of a loaded module object: either a real implementation with
result of the given type, or the throwing stub NodeSecurityPlugin installs
for a blocked member of the named module. -/
inductive MemberImpl (α : Type) : Type where
  | real (impl : α)
  | blocked (moduleName memberName : String)
deriving DecidableEq, Repr

/-- The message of the error thrown by a NodeSecurityPlugin stub when the
blocked member is invoked. -/
def blockedMessage (moduleName memberName : String) : String :=
  "Attempt to access " ++ moduleName ++ "." ++ memberName ++ " was blocked"

/-- Invoking a member of a loaded module: a real member returns its
result; a stub installed by NodeSecurityPlugin throws the descriptive
error, and only then. -/
def invokeMember {α : Type} : MemberImpl α → Except String α
  | MemberImpl.real impl => Except.ok impl
  | MemberImpl.blocked moduleName memberName =>
    Except.error (blockedMessage moduleName memberName)

/-- The forEach body of the NodeSecurityPlugin constructor: assigning the
throwing stub to one member of the loaded module object. -/
def blockMember {α : Type} (moduleName : String)
    (m : String → Option (MemberImpl α)) (key : String) :
    String → Option (MemberImpl α) :=
  fun k =>
    if k == key then some (MemberImpl.blocked moduleName key) else m k

/-- The NodeSecurityPlugin constructor applied to the already loaded
module object: over the keys of the member config whose value is falsy,
overwrite that member with a stub that throws when invoked. Members with
a truthy configured value or absent from the config are not touched. -/
def NodeSecurityPlugin {α : Type} (moduleName : String)
    (config : List (String × Bool))
    (loadedModule : String → Option (MemberImpl α)) :
    String → Option (MemberImpl α) :=
  ((config.filter (fun kv => !kv.2)).map (fun kv => kv.1)).foldl
    (blockMember moduleName) loadedModule

/-! ## Claim C3 -/

/-- Claim C3: the resolver walks the requester chain nearest first and the
first requester with an explicit per-requester entry for the requested
name decides the verdict immediately; for the chain [A, B] the verdict of
A for X is returned whatever B and the global core table say, so an
explicit verdict overrides the global default in both directions. -/
theorem c3_nearest_requester_wins (cfg : NSConfig) (A B X : String)
    (mA mB : List (String × Bool)) (vA vB : Bool)
    (hA : jsGet cfg.module A = some mA) (hAX : jsGet mA X = some vA)
    (hB : jsGet cfg.module B = some mB) (hBX : jsGet mB X = some vB) :
    isModuleAllowed cfg X (chainOf [A, B]) = vA := by
  have hchain : findParentModules (chainOf [A, B]) = [A, B] := rfl
  have hwalk : walkOverrides cfg.module [A, B] X = some vA := by
    simp [walkOverrides, hA, hAX]
  simp [isModuleAllowed, hchain, hwalk]

/-- Witness for C3: a chain where the nearest requester allows fs, the
farther one denies it, and the global core table denies it, resolves to
allowed. -/
theorem c3_witness :
    isModuleAllowed
      { core := [("fs", CoreVal.bool false)]
        module := [("/a.js", [("fs", true)]), ("/b.js", [("fs", false)])]
        env := EnvOpt.nul
        plugins := [] }
      "fs" (chainOf ["/a.js", "/b.js"]) = true :=
  c3_nearest_requester_wins _ "/a.js" "/b.js" "fs"
    [("fs", true)] [("fs", false)] true false rfl rfl rfl rfl

/-! ## Claim C4 -/

/-- Counterexample for C4: the claim says a core entry that is unset
(bound to null or undefined rather than absent) resolves to Deny, but the
source only denies on a value strictly equal to false, so a null binding
resolves to Allow. -/
theorem c4_counterexample :
    isModuleAllowed
      { core := [("dotenv", CoreVal.nul)]
        module := []
        env := EnvOpt.nul
        plugins := [] }
      "dotenv" none = true := rfl

/-- Shared characterization of the core-table fallback: with no explicit
requester opinion, the resolver denies exactly on a core binding whose
value is strictly false. -/
theorem isModuleAllowed_no_override (cfg : NSConfig) (X : String)
    (chain : Option ModuleRef)
    (hover : walkOverrides cfg.module (findParentModules chain) X = none) :
    isModuleAllowed cfg X chain = false ↔
      jsGet cfg.core X = some (CoreVal.bool false) := by
  by_cases h : jsGet cfg.core X = some (CoreVal.bool false) <;>
    simp [isModuleAllowed, hover, h]

/-- Claim C4 as amended: when no requester in the chain expresses an
explicit opinion, the resolver denies exactly when the core table binds
the requested name to the value false; an entry bound to null or
undefined, an Allowed entry, a Restricted member map, and a name absent
from the table all resolve to Allow. -/
theorem c4_default_table_fallback (cfg : NSConfig) (X : String)
    (chain : Option ModuleRef)
    (hover : walkOverrides cfg.module (findParentModules chain) X = none) :
    isModuleAllowed cfg X chain = false ↔
      jsGet cfg.core X = some (CoreVal.bool false) :=
  isModuleAllowed_no_override cfg X chain hover

/-- Witness for C4: a name bound to false in the core table with no
requester opinion resolves to Deny. -/
theorem c4_witness :
    isModuleAllowed
      { core := [("fs", CoreVal.bool false)]
        module := []
        env := EnvOpt.nul
        plugins := [] }
      "fs" none = false :=
  (c4_default_table_fallback _ "fs" none rfl).mpr rfl

/-! ## Claim C1 -/

/-- Counterexample for C1: resolving the gatekeeper module name
node-security is not hard-coded to Deny. With the shipped default core
table, a per-requester override mapping node-security to true makes the
resolver return Allow for that requester; and a merged core table mapping
node-security to true makes the resolver return Allow for every chain
without an override. -/
theorem c1_counterexample :
    isModuleAllowed
      { core := defaultCoreConfig
        module := [("/evil.js", [("node-security", true)])]
        env := EnvOpt.nul
        plugins := defaultPlugins }
      "node-security" (chainOf ["/evil.js"]) = true
  ∧ isModuleAllowed
      { core := jsMerge defaultCoreConfig [("node-security", CoreVal.bool true)]
        module := []
        env := EnvOpt.nul
        plugins := defaultPlugins }
      "node-security" none = true := by
  exact ⟨rfl, rfl⟩

/-- Claim C1 as amended: the self-protection of the gatekeeper is only the
node-security entry of the default core table. Whenever the merged core
table still binds node-security to false and no requester in the chain
has an explicit override for it, resolution returns Deny; there is no
precedence rule above the override walk, so an override or a core entry
mapping node-security to allowed is honoured. -/
theorem c1_self_protection_via_default_entry (cfg : NSConfig)
    (chain : Option ModuleRef)
    (hcore : jsGet cfg.core "node-security" = some (CoreVal.bool false))
    (hover : walkOverrides cfg.module (findParentModules chain)
        "node-security" = none) :
    isModuleAllowed cfg "node-security" chain = false :=
  (isModuleAllowed_no_override cfg "node-security" chain hover).mpr hcore

/-- Witness for the amended C1: with the unmodified default configuration
and a requester chain with no override tables, node-security resolves to
Deny. -/
theorem c1_witness :
    isModuleAllowed defaultConfig "node-security"
      (chainOf ["/app/index.js"]) = false :=
  c1_self_protection_via_default_entry defaultConfig
    (chainOf ["/app/index.js"]) rfl rfl

/-! ## Claim C5 -/

/-- Claim C5: the installed hook throws exactly when the resolver denies,
and the thrown error carries the requested name and the full requester
chain; in that case the captured previous implementation is never invoked
(the result is the same error for every possible previous implementation);
when the resolver allows, the hook calls the previous implementation with
the same three arguments and returns its result unchanged. -/
theorem c5_hook_gates_load {α : Type} (cfg : NSConfig)
    (orig orig2 : String → Option ModuleRef → Bool → α)
    (request : String) (parent : Option ModuleRef) (isMain : Bool) :
    (isModuleAllowed cfg request parent = false →
      ModuleLoader.load cfg orig request parent isMain =
          Except.error
            { request := request, parents := findParentModules parent }
        ∧ ModuleLoader.load cfg orig request parent isMain =
            ModuleLoader.load cfg orig2 request parent isMain)
  ∧ (isModuleAllowed cfg request parent = true →
      ModuleLoader.load cfg orig request parent isMain =
        Except.ok (orig request parent isMain)) := by
  constructor
  · intro h
    constructor <;> simp [ModuleLoader.load, h]
  · intro h
    simp [ModuleLoader.load, h]

/-- A small config used by the C5 witness: fs denied globally, no
per-requester overrides. -/
def c5cfg : NSConfig :=
  { core := [("fs", CoreVal.bool false)]
    module := []
    env := EnvOpt.nul
    plugins := [] }

/-- Witness for C5: with a config denying fs and allowing path, loading
fs from a one-requester chain throws the error carrying the name and the
chain, and loading path returns the original loader result unchanged. -/
theorem c5_witness :
    ModuleLoader.load c5cfg
      (fun _ _ _ => (0 : Nat)) "fs" (chainOf ["/a.js"]) false =
        Except.error { request := "fs", parents := ["/a.js"] }
  ∧ ModuleLoader.load c5cfg
      (fun _ _ _ => (7 : Nat)) "path" (chainOf ["/a.js"]) true =
        Except.ok 7 := by
  constructor
  · exact ((c5_hook_gates_load c5cfg (fun _ _ _ => (0 : Nat))
      (fun _ _ _ => (0 : Nat)) "fs" (chainOf ["/a.js"]) false).1 rfl).1
  · exact (c5_hook_gates_load c5cfg (fun _ _ _ => (7 : Nat))
      (fun _ _ _ => (7 : Nat)) "path" (chainOf ["/a.js"]) true).2 rfl

/-! ## Claim C6 -/

/-- The configure-reset-configure scenario on a single instance, recording
the error slot of each configure call. -/
def c6FirstCall : Option String × NSInstance × ProcessState :=
  NodeSecurity.configure id (freshInstance 1)
    { moduleLoad := Impl.original, env := [] } {}

/-- The instance and process state after resetting the configured
instance of the first call. -/
def c6AfterReset : NSInstance × ProcessState :=
  NodeSecurity.reset c6FirstCall.2.1 c6FirstCall.2.2

/-- The second configure call on the same instance, after the reset. -/
def c6SecondCall : Option String × NSInstance × ProcessState :=
  NodeSecurity.configure id c6AfterReset.1 c6AfterReset.2 {}

/-- Counterexample for C6: a second configure attempt on the same instance
does not always fail. After configure and reset on one instance, a second
configure on that instance succeeds (no error is thrown), because reset
clears the configured flag; so the transition to Configured is not allowed
only once per instance. -/
theorem c6_counterexample :
    c6FirstCall.1 = none ∧ c6SecondCall.1 = none := by
  exact ⟨rfl, rfl⟩

/-- Claim C6 as amended: while an instance is configured, any further
configure attempt on it fails with the AlreadyConfigured error and leaves
both the instance state (including its policy) and the process state
exactly unchanged; only reset clears the configured flag and permits a
later configure. -/
theorem c6_configure_guard (res : String → String) (inst : NSInstance)
    (proc : ProcessState) (u : UserConfig)
    (h : inst.configured = true) :
    NodeSecurity.configure res inst proc u =
      (some ERROR_ALREADY_CONFIGURED, inst, proc) := by
  simp [NodeSecurity.configure, h]

/-- Witness for the amended C6: a second immediate configure on a freshly
configured instance fails with AlreadyConfigured and changes nothing. -/
theorem c6_witness :
    NodeSecurity.configure id c6FirstCall.2.1 c6FirstCall.2.2 {} =
      (some ERROR_ALREADY_CONFIGURED, c6FirstCall.2.1, c6FirstCall.2.2) :=
  c6_configure_guard id c6FirstCall.2.1 c6FirstCall.2.2 {} rfl

/-! ## Claim C7 -/

/-- Claim C7: for a fresh instance (no other install by this instance),
configure captures the active entry point, installs the instance hook on
top of it, and a following reset restores the process-wide entry point to
exactly the implementation captured before install — whatever that
implementation was, in particular the pristine loader when no instance
was ever installed. -/
theorem c7_reset_restores (res : String → String) (proc : ProcessState)
    (u : UserConfig) (n : Nat) :
    (NodeSecurity.configure res (freshInstance n) proc u).2.2.moduleLoad =
      Impl.hook n (mergeConfig res defaultConfig u) proc.moduleLoad
  ∧ (NodeSecurity.reset
        (NodeSecurity.configure res (freshInstance n) proc u).2.1
        (NodeSecurity.configure res (freshInstance n) proc u).2.2).2.moduleLoad
      = proc.moduleLoad := by
  exact ⟨rfl, rfl⟩

/-! ## Claim C2 -/

/-- Install of instance 1 on a pristine process. -/
def c2Step1 : Option String × NSInstance × ProcessState :=
  NodeSecurity.configure id (freshInstance 1)
    { moduleLoad := Impl.original, env := [] } {}

/-- Install of instance 2 on top of instance 1. -/
def c2Step2 : Option String × NSInstance × ProcessState :=
  NodeSecurity.configure id (freshInstance 2) c2Step1.2.2 {}

/-- Out-of-order uninstall: reset of instance 1 while instance 2 is the
most recently installed. -/
def c2Step3 : NSInstance × ProcessState :=
  NodeSecurity.reset c2Step1.2.1 c2Step2.2.2

/-- Counterexample for C2: installing instance 1, then instance 2, then
uninstalling instance 1 does not leave the hook of instance 2 active.
Before the reset the active entry point runs the hook of instance 2; the
reset of instance 1 restores the implementation instance 1 captured, the
pristine loader, so afterwards the active entry point runs neither hook. -/
theorem c2_counterexample :
    Impl.usesHook c2Step2.2.2.moduleLoad 2 = true
  ∧ Impl.usesHook c2Step3.2.moduleLoad 2 = false
  ∧ c2Step3.2.moduleLoad = Impl.original := by
  exact ⟨rfl, rfl, rfl⟩

/-- Claim C2 as amended: after installing instance 1 and then instance 2,
the active entry point chains the hook of instance 2 over the hook of
instance 1; uninstalling instance 1 out of install order restores the
implementation instance 1 captured at its own install time, which removes
both links, so the hook of instance 2 is skipped rather than kept active.
Only uninstalling in reverse install order unwinds a single link. -/
theorem c2_out_of_order_reset (res : String → String) (proc : ProcessState)
    (u1 u2 : UserConfig) (n1 n2 : Nat) :
    (NodeSecurity.configure res (freshInstance n2)
        (NodeSecurity.configure res (freshInstance n1) proc u1).2.2
        u2).2.2.moduleLoad =
      Impl.hook n2 (mergeConfig res defaultConfig u2)
        (Impl.hook n1 (mergeConfig res defaultConfig u1) proc.moduleLoad)
  ∧ (NodeSecurity.reset
        (NodeSecurity.configure res (freshInstance n1) proc u1).2.1
        (NodeSecurity.configure res (freshInstance n2)
          (NodeSecurity.configure res (freshInstance n1) proc u1).2.2
          u2).2.2).2.moduleLoad
      = proc.moduleLoad := by
  exact ⟨rfl, rfl⟩

/-! ## Claim C10 -/

/-- Claim C10: after reset on a configured instance that holds a
ModuleLoader, a subsequent configure on the same instance succeeds (no
AlreadyConfigured error), merges the new user config into the instance
config, but does not re-install the interception hook: the instance keeps
its existing ModuleLoader (still bound to the old config), and the
process-wide load entry point stays exactly where reset put it, the
implementation that ModuleLoader captured at install time — so the newly
configured policy is not wired into module loading. -/
theorem c10_reconfigure_after_reset (res : String → String)
    (inst : NSInstance) (proc : ProcessState) (u : UserConfig)
    (ml : ModuleLoaderState) (hml : inst.moduleLoader = some ml) :
    (NodeSecurity.configure res (NodeSecurity.reset inst proc).1
        (NodeSecurity.reset inst proc).2 u).1 = none
  ∧ (NodeSecurity.configure res (NodeSecurity.reset inst proc).1
        (NodeSecurity.reset inst proc).2 u).2.1.config =
      mergeConfig res inst.config u
  ∧ (NodeSecurity.configure res (NodeSecurity.reset inst proc).1
        (NodeSecurity.reset inst proc).2 u).2.1.moduleLoader = some ml
  ∧ (NodeSecurity.configure res (NodeSecurity.reset inst proc).1
        (NodeSecurity.reset inst proc).2 u).2.2.moduleLoad =
      ml.originalLoad := by
  simp [NodeSecurity.configure, NodeSecurity.reset, hml]

/-- Witness for C10: configure, reset, configure again on one concrete
instance; the second configure succeeds, keeps the old ModuleLoader with
its captured pristine loader, and leaves the entry point pristine. -/
theorem c10_witness :
    (NodeSecurity.configure id (NodeSecurity.reset c2Step1.2.1 c2Step1.2.2).1
        (NodeSecurity.reset c2Step1.2.1 c2Step1.2.2).2 {}).1 = none
  ∧ (NodeSecurity.configure id (NodeSecurity.reset c2Step1.2.1 c2Step1.2.2).1
        (NodeSecurity.reset c2Step1.2.1 c2Step1.2.2).2 {}).2.2.moduleLoad =
      Impl.original := by
  have h := c10_reconfigure_after_reset id c2Step1.2.1 c2Step1.2.2 {}
    { config := mergeConfig id defaultConfig {},
      originalLoad := Impl.original } rfl
  exact ⟨h.1, h.2.2.2⟩

/-! ## Claim C8 -/

/-- Applying the member-blocking fold pointwise: a member is the blocking
stub exactly when its key is among the keys folded over, and otherwise is
whatever the loaded module held. -/
theorem foldl_blockMember_apply {α : Type} (moduleName : String)
    (keys : List String) (m : String → Option (MemberImpl α)) (k : String) :
    keys.foldl (blockMember moduleName) m k =
      if k ∈ keys then some (MemberImpl.blocked moduleName k) else m k := by
  induction keys generalizing m with
  | nil => simp
  | cons key rest ih =>
    simp only [List.foldl_cons]
    rw [ih]
    by_cases hmem : k ∈ rest
    · simp [hmem, List.mem_cons]
    · by_cases he : k = key
      · subst he
        simp [hmem, blockMember, List.mem_cons]
      · simp [hmem, he, blockMember, beq_iff_eq, List.mem_cons]

/-- For a member config without duplicate keys, its lookup yielding false
is the same as membership in the list of falsy-valued keys the plugin
iterates over. -/
theorem jsGet_false_iff_mem_blocked_keys (config : List (String × Bool))
    (k : String) (h : (config.map Prod.fst).Nodup) :
    jsGet config k = some false ↔
      k ∈ (config.filter (fun kv => !kv.2)).map (fun kv => kv.1) := by
  induction config with
  | nil => simp [jsGet]
  | cons kv rest ih =>
    obtain ⟨k1, v1⟩ := kv
    simp only [List.map_cons, List.nodup_cons] at h
    obtain ⟨hk1, hrest⟩ := h
    by_cases he : k1 = k
    · subst he
      have hget : jsGet ((k1, v1) :: rest) k1 = some v1 := by
        simp [jsGet]
      rw [hget]
      cases v1 with
      | false =>
        simp
      | true =>
        have hfilter :
            List.filter (fun kv => !kv.2) ((k1, true) :: rest) =
              List.filter (fun kv => !kv.2) rest := by
          simp [List.filter_cons]
        rw [hfilter]
        constructor
        · intro hcontr
          simp at hcontr
        · intro hmem
          exfalso
          apply hk1
          simp only [List.mem_map, List.mem_filter] at hmem
          obtain ⟨kv2, hkv2, hfst⟩ := hmem
          exact List.mem_map.mpr ⟨kv2, hkv2.1, hfst⟩
    · have hget : jsGet ((k1, v1) :: rest) k = jsGet rest k := by
        simp [jsGet, he]
      rw [hget, ih hrest]
      cases v1 with
      | false =>
        simp [List.filter_cons, Ne.symm he]
      | true =>
        simp [List.filter_cons]

/-- Claim C8: for a member config without duplicate keys (a JS object),
the plugin replaces on the loaded module exactly the members whose
configured value is false with the stub for that module and member;
members configured true or absent from the config are left unchanged; a
stub fails only when invoked, with a message identifying the module and
the member, while invoking a real member returns its implementation. -/
theorem c8_plugin_blocks_false_members {α : Type} (moduleName : String)
    (config : List (String × Bool))
    (loadedModule : String → Option (MemberImpl α))
    (hkeys : (config.map Prod.fst).Nodup) (k : String) :
    (jsGet config k = some false →
      NodeSecurityPlugin moduleName config loadedModule k =
        some (MemberImpl.blocked moduleName k))
  ∧ (jsGet config k = some true ∨ jsGet config k = none →
      NodeSecurityPlugin moduleName config loadedModule k = loadedModule k)
  ∧ invokeMember (MemberImpl.blocked moduleName k : MemberImpl α) =
      Except.error (blockedMessage moduleName k)
  ∧ (∀ x : α, invokeMember (MemberImpl.real x : MemberImpl α) =
      Except.ok x) := by
  refine ⟨?_, ?_, rfl, fun x => rfl⟩
  · intro hfalse
    have hmem := (jsGet_false_iff_mem_blocked_keys config k hkeys).mp hfalse
    simp [NodeSecurityPlugin, foldl_blockMember_apply, hmem]
  · intro hother
    have hnot : ¬ jsGet config k = some false := by
      rcases hother with h | h <;> simp [h]
    have hmem :
        k ∉ (config.filter (fun kv => !kv.2)).map (fun kv => kv.1) :=
      fun hm =>
        hnot ((jsGet_false_iff_mem_blocked_keys config k hkeys).mpr hm)
    simp [NodeSecurityPlugin, foldl_blockMember_apply, hmem]

/-- The loaded os module object used by the C8 witness. -/
def c8osModule : String → Option (MemberImpl Nat) :=
  fun k =>
    if k == "arch" then some (MemberImpl.real 1)
    else if k == "cpus" then some (MemberImpl.real 2)
    else none

/-- Witness for C8: with member config arch false and cpus true for the
os module, the patched module has a stub at arch that throws the
identifying message when invoked, while cpus is untouched. -/
theorem c8_witness :
    NodeSecurityPlugin "os" [("arch", false), ("cpus", true)] c8osModule
        "arch" = some (MemberImpl.blocked "os" "arch")
  ∧ NodeSecurityPlugin "os" [("arch", false), ("cpus", true)] c8osModule
        "cpus" = some (MemberImpl.real 2)
  ∧ invokeMember (MemberImpl.blocked "os" "arch" : MemberImpl Nat) =
      Except.error "Attempt to access os.arch was blocked" := by
  refine ⟨?_, ?_, ?_⟩
  · exact (c8_plugin_blocks_false_members "os"
      [("arch", false), ("cpus", true)] c8osModule (by decide) "arch").1 rfl
  · exact ((c8_plugin_blocks_false_members "os"
      [("arch", false), ("cpus", true)] c8osModule (by decide)
        "cpus").2.1 (Or.inl rfl)).trans rfl
  · exact (c8_plugin_blocks_false_members "os"
      [("arch", false), ("cpus", true)] c8osModule (by decide)
        "arch").2.2.1

/-! ## Claim C9 -/

/-- The env replacement computed over an allow-list object without
duplicate keys equals the allow-list entries with a truthy value, each
bound to the ambient value of its key: the keys-then-lookup chain of the
source collapses to a direct filter over the entries. -/
theorem filterEnv_allow (l : List (String × Bool))
    (env : List (String × Option String))
    (h : (l.map Prod.fst).Nodup) :
    filterEnv (EnvOpt.allow l) env =
      (l.filter (fun kv => kv.2)).map
        (fun kv => (kv.1, envValue env kv.1)) := by
  induction l with
  | nil => rfl
  | cons kv rest ih =>
    obtain ⟨k1, v1⟩ := kv
    simp only [List.map_cons, List.nodup_cons] at h
    obtain ⟨hk1, hrest⟩ := h
    have hcong :
        (rest.map (fun kv => kv.1)).filter
            (fun k => jsGet ((k1, v1) :: rest) k == some true) =
          (rest.map (fun kv => kv.1)).filter
            (fun k => jsGet rest k == some true) := by
      apply List.filter_congr
      intro k hkmem
      have hne : ¬ k1 = k := by
        intro heq
        apply hk1
        rw [heq]
        simpa using hkmem
      simp [jsGet, beq_iff_eq, hne]
    have hhead : jsGet ((k1, v1) :: rest) k1 = some v1 := by
      simp [jsGet]
    have ihrw := ih hrest
    simp only [filterEnv] at ihrw ⊢
    simp only [List.map_cons, List.filter_cons, hhead, hcong]
    cases v1 with
    | true => simp [ihrw]
    | false => simp [ihrw]

/-- Claim C9: on configuring a not yet configured instance, when the env
option is an allow-list without duplicate keys, the process env table is
replaced by exactly the truthy allow-listed keys bound to their original
ambient values; when the env option is the disable-all sentinel false,
the table becomes empty. -/
theorem c9_env_filtering (res : String → String) (inst : NSInstance)
    (proc : ProcessState) (u : UserConfig)
    (l : List (String × Bool)) (hconf : inst.configured = false)
    (hl : (l.map Prod.fst).Nodup) :
    (u.env = EnvOpt.allow l →
      (NodeSecurity.configure res inst proc u).2.2.env =
        (l.filter (fun kv => kv.2)).map
          (fun kv => (kv.1, envValue proc.env kv.1)))
  ∧ (u.env = EnvOpt.boolVal false →
      (NodeSecurity.configure res inst proc u).2.2.env = []) := by
  constructor
  · intro henv
    cases hml : inst.moduleLoader with
    | some ml =>
      simp [NodeSecurity.configure, hconf, hml, mergeConfig, henv,
        filterEnv_allow l proc.env hl]
    | none =>
      simp [NodeSecurity.configure, hconf, hml, mergeConfig, henv,
        filterEnv_allow l proc.env hl]
  · intro henv
    cases hml : inst.moduleLoader with
    | some ml =>
      simp [NodeSecurity.configure, hconf, hml, mergeConfig, henv,
        filterEnv]
    | none =>
      simp [NodeSecurity.configure, hconf, hml, mergeConfig, henv,
        filterEnv]

/-- The ambient process env table of the C9 witness: a public and a
secret variable. -/
def c9ambient : ProcessState :=
  { moduleLoad := Impl.original
    env := [("PUBLIC", some "x"), ("SECRET", some "y")] }

/-- Witness for C9: allow-list PUBLIC true over ambient PUBLIC x and
SECRET y leaves exactly PUBLIC bound to x; env false empties the table. -/
theorem c9_witness :
    (NodeSecurity.configure id (freshInstance 3) c9ambient
        { env := EnvOpt.allow [("PUBLIC", true)] }).2.2.env =
      [("PUBLIC", some "x")]
  ∧ (NodeSecurity.configure id (freshInstance 4) c9ambient
        { env := EnvOpt.boolVal false }).2.2.env = [] := by
  constructor
  · have h := (c9_env_filtering id (freshInstance 3) c9ambient
      { env := EnvOpt.allow [("PUBLIC", true)] } [("PUBLIC", true)]
      rfl (by decide)).1 rfl
    rw [h]
    rfl
  · exact (c9_env_filtering id (freshInstance 4) c9ambient
      { env := EnvOpt.boolVal false } [] rfl (by decide)).2 rfl
